import Mathlib

/-!
Verification development for the `my_agent` travel-assistant repository.

The development shallowly embeds the parts of the code that the checked
properties are about:

* the read-only SQL guard (`src/my_agent/utils/tools/manage_sql.py`),
* the car-rental database operations
  (`src/my_agent/utils/tool_agents/car_agent.py`),
* the per-domain guarded-tool policies of the four worker agents,
* the checkpoint stores wired into each agent,
* the supervisor's permission-confirmation relay
  (`src/my_agent/travel_agent.py`), and
* the memory-store middleware (`src/my_agent/utils/middleware/`).

The reasoning/tool loop engine itself (`create_agent` together with
`HumanInTheLoopMiddleware` and the langgraph checkpointers) is an external
library dependency; where a definition models that engine rather than code of
the repository, its doc comment says so explicitly and follows the
specification's description of the engine (spec sections 4.1 to 4.5).

Python strings are modelled as `List Char` / `String`.  Character classes
(whitespace, word characters, lower-casing) are modelled at ASCII fidelity;
all concrete inputs used in the theorems below are ASCII or CJK text in which
this approximation is exact.
-/

namespace MyAgent

/-! ## 1. The read-only SQL guard (`manage_sql.py`) -/

/-- Python's default `str.strip` whitespace set (ASCII part):
space, tab, newline, carriage return, vertical tab, form feed.
This is also the ASCII part of the regex class `\s`. -/
def pyWhite (c : Char) : Bool :=
  c == ' ' || c == '\t' || c == '\n' || c == '\r' ||
  c == Char.ofNat 11 || c == Char.ofNat 12

/-- `str.strip()`: drop the whitespace of `pyWhite` from both ends. -/
def pyStrip (l : List Char) : List Char :=
  ((l.dropWhile pyWhite).reverse.dropWhile pyWhite).reverse

/-- `str.rstrip(";")`: drop all trailing semicolons. -/
def rstripSemi (l : List Char) : List Char :=
  (l.reverse.dropWhile (fun c => c == ';')).reverse

/-- `q.count(";")` for the single character `;`. -/
def countSemi (l : List Char) : Nat := l.count ';'

/-- `q.endswith(";")`. -/
def endsWithSemi (l : List Char) : Bool :=
  match l.reverse with
  | ';' :: _ => true
  | _ => false

/-- `";" in q[:-1]`. -/
def semiInInit (l : List Char) : Bool := l.dropLast.contains ';'

/-- ASCII lower-casing of a whole string, modelling `str.lower()` and the
`re.I` flag on ASCII input. -/
def lowerAll (l : List Char) : List Char := l.map Char.toLower

/-- Word characters for the regex `\b` boundary (ASCII part of `\w`). -/
def isWordChar (c : Char) : Bool := c.isAlphanum || c == '_'

/-- Head of a list is a word character. -/
def headIsWord (l : List Char) : Bool :=
  match l with
  | [] => false
  | c :: _ => isWordChar c

/-- The keyword `kw` occurs at the front of `l` with a word boundary after it. -/
def wordAt (kw l : List Char) : Bool :=
  kw.isPrefixOf l && !(headIsWord (l.drop kw.length))

/-- Scan `l` for an occurrence of `kw` delimited by `\b` on both sides;
`prevWord` records whether the character before the current position is a
word character. -/
def searchWordAux (kw : List Char) : Bool → List Char → Bool
  | _, [] => false
  | prevWord, c :: rest =>
    (!prevWord && wordAt kw (c :: rest)) || searchWordAux kw (isWordChar c) rest

/-- The eight lower-cased keywords of `DENY_RE` in `manage_sql.py`. -/
def denyWords : List (List Char) :=
  ["insert".data, "update".data, "delete".data, "alter".data,
   "drop".data, "create".data, "replace".data, "truncate".data]

/-- `DENY_RE.search(q)`: a DML/DDL keyword occurs as a whole word,
case-insensitively, anywhere in `q`. -/
def denyMatch (l : List Char) : Bool :=
  denyWords.any (fun kw => searchWordAux kw false (lowerAll l))

/-- Remainder of the tail pattern of `HAS_LIMIT_TAIL_RE` after the digits of
the limit count: the optional group `\s*,\s*\d+` followed by `\s*;?\s*$`. -/
def limitEndOk (l : List Char) : Bool :=
  match l.dropWhile pyWhite with
  | [] => true
  | ';' :: rest => (rest.dropWhile pyWhite).isEmpty
  | _ => false

/-- After `limit\s+\d+`: either directly the end pattern, or `\s*,\s*\d+`
and then the end pattern. -/
def limitAfterDigits (l : List Char) : Bool :=
  limitEndOk l ||
  (match l.dropWhile pyWhite with
   | ',' :: rest =>
     let r := rest.dropWhile pyWhite
     !(r.takeWhile Char.isDigit).isEmpty &&
       limitEndOk (r.dropWhile Char.isDigit)
   | _ => false)

/-- What must follow the literal `limit`: `\s+\d+` and then
`limitAfterDigits` (the trailing `\b` is subsumed by the mandatory
whitespace). -/
def limitTailArgs (l : List Char) : Bool :=
  match l with
  | [] => false
  | c :: _ =>
    pyWhite c &&
      (let l1 := l.dropWhile pyWhite
       !(l1.takeWhile Char.isDigit).isEmpty &&
         limitAfterDigits (l1.dropWhile Char.isDigit))

/-- Scan (over the already lower-cased text) for a match of
`\blimit\b\s+\d+(\s*,\s*\d+)?\s*;?\s*$`. -/
def searchLimitAux : Bool → List Char → Bool
  | _, [] => false
  | prevWord, c :: rest =>
    (!prevWord && wordAt "limit".data (c :: rest) &&
      limitTailArgs ((c :: rest).drop 5)) ||
    searchLimitAux (isWordChar c) rest

/-- `HAS_LIMIT_TAIL_RE.search(q)` from `manage_sql.py`. -/
def hasLimitTail (l : List Char) : Bool := searchLimitAux false (lowerAll l)

/-- Error text returned for multiple statements. -/
def errMulti : String := "Error: multiple statements are not allowed."

/-- Error text returned for a non-SELECT statement. -/
def errNonSelect : String := "Error: only SELECT statements are allowed."

/-- Error text returned when a DML/DDL keyword is detected. -/
def errDml : String := "Error: DML/DDL detected. Only read-only queries are permitted."

/-- The whitespace- and semicolon-stripped form of a query: `q.strip()`
followed by `q.rstrip(";").strip()`, as computed inside `_safe_sql`. -/
def sqlStripped (q : List Char) : List Char := pyStrip (rstripSemi (pyStrip q))

/-- Embedding of `_safe_sql` from `src/my_agent/utils/tools/manage_sql.py`,
line for line:

* strip whitespace;
* reject when `q.count(";") > 1` or (`q` ends with `";"` and another `";"`
  occurs before it);
* strip all trailing semicolons and whitespace again;
* reject unless the lower-cased text starts with `select`;
* reject when `DENY_RE` finds a DML/DDL keyword as a word;
* append `" LIMIT 5"` unless `HAS_LIMIT_TAIL_RE` already matches. -/
def _safe_sql (q : String) : String :=
  let q1 := pyStrip q.data
  if 1 < countSemi q1 ∨ (endsWithSemi q1 ∧ semiInInit q1) then errMulti
  else
    let q2 := pyStrip (rstripSemi q1)
    if ¬ ("select".data.isPrefixOf (lowerAll q2)) then errNonSelect
    else if denyMatch q2 then errDml
    else if ¬ (hasLimitTail q2 = true) then ⟨q2 ++ " LIMIT 5".data⟩
    else ⟨q2⟩

/-- Embedding of the `execute_sql` tool produced by `sql_factory`
(`manage_sql.py`): it applies `_safe_sql` to the incoming query and passes
the *result* (be it the sanitised query or one of the error texts) to the
database's `run` callable; a raised database error is caught and rendered as
`"Error: <e>"`.  The embedding is instrumented as the spy the specification's
testable properties ask for: the second component records every string that
is handed to `run`. -/
def execute_sql (run : String → Except String String) (query : String) :
    String × List String :=
  match run (_safe_sql query) with
  | Except.ok s => (s, [_safe_sql query])
  | Except.error e => ("Error: " ++ e, [_safe_sql query])

/-! ## 2. The car-rental database operations (`car_agent.py`) -/

/-- A row of the `available_cars` table. -/
structure CarRow where
  id : Int
  name : String
  location : String
  carType : String
  pricePerDay : Int
  rentedQuantity : Int
  totalQuantity : Int
  available : Int
deriving Repr, DecidableEq

/-- A row of the `car_rental_orders` table. -/
structure RentalOrder where
  id : Int
  carId : Int
  userId : String
  startDate : String
  endDate : String
  totalPrice : Int
  status : String
deriving Repr, DecidableEq

/-- The two tables of `./data/DB/travel.db` that the car tools touch. -/
structure TravelDb where
  cars : List CarRow
  orders : List RentalOrder
deriving Repr, DecidableEq

/-- Gregorian leap years, as Python's `datetime` uses. -/
def isLeapYear (y : Nat) : Bool := y % 4 == 0 && (y % 100 != 0 || y % 400 == 0)

/-- Length of month `m` of year `y`. -/
def monthLen (y m : Nat) : Nat :=
  if m = 2 then (if isLeapYear y then 29 else 28)
  else if m = 4 ∨ m = 6 ∨ m = 9 ∨ m = 11 then 30
  else 31

/-- All characters are ASCII digits. -/
def allDigits (l : List Char) : Bool := !l.isEmpty && l.all Char.isDigit

/-- Numeric value of a digit string. -/
def natOfDigits (l : List Char) : Nat :=
  l.foldl (fun a c => a * 10 + (c.toNat - 48)) 0

/-- Embedding of `datetime.strptime(s, "%Y-%m-%d")`: `%Y` is exactly four
digits, `%m` and `%d` are one or two digits in range, the day is validated
against the month length, and the year must be at least 1 (`MINYEAR`).
Returns the (year, month, day) triple, or `none` when parsing raises. -/
def parseYmd (s : String) : Option (Nat × Nat × Nat) :=
  match s.splitOn "-" with
  | [ys, ms, ds] =>
    if allDigits ys.data ∧ ys.length = 4 ∧
       allDigits ms.data ∧ ms.length ≤ 2 ∧
       allDigits ds.data ∧ ds.length ≤ 2 then
      let y := natOfDigits ys.data
      let m := natOfDigits ms.data
      let d := natOfDigits ds.data
      if 1 ≤ y ∧ 1 ≤ m ∧ m ≤ 12 ∧ 1 ≤ d ∧ d ≤ monthLen y m then
        some (y, m, d)
      else none
    else none
  | _ => none

/-- Days of year `y` before month `m`. -/
def daysBeforeMonth (y m : Nat) : Nat :=
  (List.range (m - 1)).foldl (fun a i => a + monthLen y (i + 1)) 0

/-- Proleptic Gregorian ordinal of a date (as `date.toordinal`), so that the
difference of two ordinals is the `timedelta.days` of their subtraction. -/
def dateOrdinal (y m d : Nat) : Nat :=
  365 * (y - 1) + (y - 1) / 4 - (y - 1) / 100 + (y - 1) / 400 +
    daysBeforeMonth y m + d

/-- `(dt.strptime(e) - dt.strptime(s)).days + 1`, on already-parsed dates. -/
def rentalDays (s e : Nat × Nat × Nat) : Int :=
  (dateOrdinal e.1 e.2.1 e.2.2 : Int) - (dateOrdinal s.1 s.2.1 s.2.2 : Int) + 1

/-- `SELECT ... FROM available_cars WHERE id = ?` with `fetchone`:
the first row whose `id` matches. -/
def findCar (db : TravelDb) (carId : Int) : Option CarRow :=
  db.cars.find? (fun c => c.id == carId)

/-- `SELECT ... FROM car_rental_orders WHERE id = ?` with `fetchone`. -/
def findOrder (db : TravelDb) (orderId : Int) : Option RentalOrder :=
  db.orders.find? (fun o => o.id == orderId)

/-- `cursor.lastrowid` after inserting into `car_rental_orders`: SQLite's
next rowid, one more than the largest existing (positive) id. -/
def nextOrderId (db : TravelDb) : Int :=
  db.orders.foldl (fun a o => max a o.id) 0 + 1

/-- `UPDATE available_cars SET rented_quantity = ?, available = ? WHERE id = ?`:
every row with a matching id receives the two new values. -/
def updateCarRow (cars : List CarRow) (carId rq av : Int) : List CarRow :=
  cars.map (fun c =>
    if c.id == carId then { c with rentedQuantity := rq, available := av } else c)

/-- Embedding of the `create_rental_order` tool (`car_agent.py`), keeping the
source's order of checks: look the car up; refuse when the row is missing;
refuse when `not available or rented_quantity >= total_quantity` (Python's
falsiness of the integer `available` is `available == 0`); parse both dates
(a `strptime` failure is the caught exception branch and leaves the database
untouched); otherwise insert an `active` order priced at
`days * price_per_day` and set `rented_quantity + 1` and
`total_quantity - (rented_quantity + 1)` on the car row. -/
def create_rental_order (carId : Int) (userId : String)
    (startDate endDate : String) (db : TravelDb) : String × TravelDb :=
  match findCar db carId with
  | none => ("未找到ID为 " ++ toString carId ++ " 的车辆。", db)
  | some car =>
    if car.available = 0 ∨ car.totalQuantity ≤ car.rentedQuantity then
      ("车辆 " ++ toString carId ++ " 当前不可用。", db)
    else
      match parseYmd startDate, parseYmd endDate with
      | some sd, some ed =>
        let totalPrice := rentalDays sd ed * car.pricePerDay
        let oid := nextOrderId db
        let newOrder : RentalOrder :=
          { id := oid, carId := carId, userId := userId,
            startDate := startDate, endDate := endDate,
            totalPrice := totalPrice, status := "active" }
        let rq := car.rentedQuantity + 1
        ("订单 " ++ toString oid ++ " 创建成功！租赁车辆ID: " ++ toString carId ++
           "，总价: " ++ toString totalPrice ++ "元。",
         { cars := updateCarRow db.cars carId rq (car.totalQuantity - rq),
           orders := db.orders ++ [newOrder] })
      | _, _ => ("创建订单失败: 日期格式无效。", db)

/-- Python's `x if x else default` for an optional string argument: `None`
and the empty string both fall back to the default. -/
def pyOrElse (x : Option String) (dflt : String) : String :=
  match x with
  | some s => if s.isEmpty then dflt else s
  | none => dflt

/-- Embedding of the `update_rental_order` tool (`car_agent.py`): recompute
the price from the (possibly replaced) dates and update the order row; any
`strptime` failure is the caught exception branch. -/
def update_rental_order (orderId : Int) (startDate endDate : Option String)
    (db : TravelDb) : String × TravelDb :=
  match findOrder db orderId with
  | none => ("未找到ID为 " ++ toString orderId ++ " 的订单。", db)
  | some o =>
    match findCar db o.carId with
    | none => ("未找到相关车辆信息。", db)
    | some car =>
      let nsd := pyOrElse startDate o.startDate
      let ned := pyOrElse endDate o.endDate
      match parseYmd nsd, parseYmd ned with
      | some sd, some ed =>
        let tp := rentalDays sd ed * car.pricePerDay
        ("订单 " ++ toString orderId ++ " 更新成功！新的租赁日期: " ++ nsd ++
           " 至 " ++ ned ++ "，总价: " ++ toString tp ++ "元。",
         { db with orders := db.orders.map (fun x =>
             if x.id == orderId then
               { x with startDate := nsd, endDate := ned, totalPrice := tp }
             else x) })
      | _, _ => ("更新订单失败: 日期格式无效。", db)

/-- Embedding of the `cancel_rental_order` tool (`car_agent.py`): refuse when
the order is missing or already cancelled; otherwise set its status to
`cancelled` and, when the car row exists, set
`rented_quantity := max(0, rented_quantity - 1)` and
`available := total_quantity - rented_quantity'`. -/
def cancel_rental_order (orderId : Int) (db : TravelDb) : String × TravelDb :=
  match findOrder db orderId with
  | none => ("未找到ID为 " ++ toString orderId ++ " 的订单。", db)
  | some o =>
    if o.status = "cancelled" then
      ("订单 " ++ toString orderId ++ " 已经被取消。", db)
    else
      let orders2 := db.orders.map (fun x =>
        if x.id == orderId then { x with status := "cancelled" } else x)
      match findCar db o.carId with
      | some car =>
        let rq := max 0 (car.rentedQuantity - 1)
        ("订单 " ++ toString orderId ++ " 已成功取消。",
         { cars := updateCarRow db.cars o.carId rq (car.totalQuantity - rq),
           orders := orders2 })
      | none =>
        ("订单 " ++ toString orderId ++ " 已成功取消。",
         { cars := db.cars, orders := orders2 })

/-- `needle` occurs contiguously inside the list. -/
def containsSeq (needle : List Char) : List Char → Bool
  | [] => needle.isEmpty
  | c :: rest => needle.isPrefixOf (c :: rest) || containsSeq needle rest

/-- SQLite `LIKE '%pat%'` on ASCII text: case-insensitive substring test. -/
def likeContains (pat field : String) : Bool :=
  containsSeq (lowerAll pat.data) (lowerAll field.data)

/-- An optional `LIKE` filter that Python only adds when the argument is
truthy (neither `None` nor empty). -/
def optLike (x : Option String) (field : String) : Bool :=
  match x with
  | some p => if p.isEmpty then true else likeContains p field
  | none => true

/-- An optional equality filter on a string column, same truthiness rule. -/
def optEqStr (x : Option String) (v : String) : Bool :=
  match x with
  | some s => if s.isEmpty then true else s == v
  | none => true

/-- An optional equality filter on an integer column; Python's `if order_id:`
also skips the filter for the falsy value `0`. -/
def optEqInt (x : Option Int) (v : Int) : Bool :=
  match x with
  | some i => if i == 0 then true else i == v
  | none => true

/-- Embedding of the read-only `search_available_cars` tool:
`SELECT * FROM available_cars WHERE available > 0` plus optional `LIKE`
filters. -/
def search_available_cars (location carType name : Option String)
    (db : TravelDb) : List CarRow :=
  db.cars.filter (fun c =>
    decide (0 < c.available) && optLike location c.location &&
      optLike carType c.carType && optLike name c.name)

/-- Embedding of the read-only `search_rental_orders` tool: the inner join of
`car_rental_orders` with `available_cars` on `car_id` (each joined row
modelled as the order/car pair) plus optional equality filters. -/
def search_rental_orders (userId : Option String) (orderId : Option Int)
    (status : Option String) (db : TravelDb) : List (RentalOrder × CarRow) :=
  (db.orders.filterMap (fun o => (findCar db o.carId).map (fun c => (o, c)))).filter
    (fun p => optEqStr userId p.1.userId && optEqInt orderId p.1.id &&
      optEqStr status p.1.status)

/-! ## 3. Guarded-tool policies of the four workers

The `interrupt_on` dictionaries below are transcribed from the four
`create_agent` calls in `flight_agent.py`, `hotel_agent.py`, `car_agent.py`
and `trip_agent.py`. -/

/-- A decision type, `{"type": "approve"}` or `{"type": "reject"}`. -/
inductive DecisionName where
  | approve
  | reject
deriving Repr, DecidableEq

/-- One entry of an `interrupt_on` mapping: either `False` (the tool runs
freely) or an `allowed_decisions` list. -/
inductive ToolGuard where
  | free
  | requireDecision (allowed : List DecisionName)
deriving Repr, DecidableEq

/-- The `interrupt_on` mapping of `car_subagent` (`car_agent.py`). -/
def car_interrupt_on (n : String) : Option ToolGuard :=
  if n = "search_available_cars" then some ToolGuard.free
  else if n = "search_rental_orders" then some ToolGuard.free
  else if n = "update_rental_order" then
    some (ToolGuard.requireDecision [DecisionName.approve, DecisionName.reject])
  else if n = "cancel_rental_order" then
    some (ToolGuard.requireDecision [DecisionName.approve, DecisionName.reject])
  else if n = "create_rental_order" then
    some (ToolGuard.requireDecision [DecisionName.approve, DecisionName.reject])
  else none

/-- The `interrupt_on` mapping of `flight_subagent` (`flight_agent.py`). -/
def flight_interrupt_on (n : String) : Option ToolGuard :=
  if n = "fetch_user_flight_information" then some ToolGuard.free
  else if n = "search_flights" then some ToolGuard.free
  else if n = "update_ticket_to_new_flight" then
    some (ToolGuard.requireDecision [DecisionName.approve, DecisionName.reject])
  else if n = "cancel_ticket" then
    some (ToolGuard.requireDecision [DecisionName.approve, DecisionName.reject])
  else none

/-- The `interrupt_on` mapping of `hotel_subagent` (`hotel_agent.py`). -/
def hotel_interrupt_on (n : String) : Option ToolGuard :=
  if n = "search_available_hotels" then some ToolGuard.free
  else if n = "search_user_hotels" then some ToolGuard.free
  else if n = "book_hotel" then
    some (ToolGuard.requireDecision [DecisionName.approve, DecisionName.reject])
  else if n = "update_hotel" then
    some (ToolGuard.requireDecision [DecisionName.approve, DecisionName.reject])
  else if n = "cancel_hotel" then
    some (ToolGuard.requireDecision [DecisionName.approve, DecisionName.reject])
  else none

/-- The `interrupt_on` mapping of `excursion_subagent` (`trip_agent.py`). -/
def excursion_interrupt_on (n : String) : Option ToolGuard :=
  if n = "search_trip_recommendations" then some ToolGuard.free
  else if n = "search_excursions" then some ToolGuard.free
  else if n = "book_excursion" then
    some (ToolGuard.requireDecision [DecisionName.approve, DecisionName.reject])
  else if n = "update_excursion" then
    some (ToolGuard.requireDecision [DecisionName.approve, DecisionName.reject])
  else if n = "cancel_excursion" then
    some (ToolGuard.requireDecision [DecisionName.approve, DecisionName.reject])
  else none

/-- Whether a policy entry demands a human decision. -/
def guardRequires : Option ToolGuard → Bool
  | some (ToolGuard.requireDecision _) => true
  | _ => false

/-- A tool name is guarded under the car worker's policy. -/
def carGuardedName (n : String) : Bool := guardRequires (car_interrupt_on n)

/-- A tool name is guarded under the flight worker's policy. -/
def flightGuardedName (n : String) : Bool := guardRequires (flight_interrupt_on n)

/-- A tool name is guarded under the hotel worker's policy. -/
def hotelGuardedName (n : String) : Bool := guardRequires (hotel_interrupt_on n)

/-- A tool name is guarded under the excursion worker's policy. -/
def excursionGuardedName (n : String) : Bool :=
  guardRequires (excursion_interrupt_on n)

/-! ## 4. Checkpoint stores

`put`/`get_latest` follow the spec's section 4.4 contract; which saver each
agent is constructed with is transcribed from the source. -/

/-- A chat message (role and content). -/
inductive ChatMsg where
  | human (content : String)
  | ai (content : String)
  | toolResult (toolName : String) (content : String)
  | system (content : String)
deriving Repr, DecidableEq

/-- Content of a message, Python's `msg.content`. -/
def msgContent : ChatMsg → String
  | ChatMsg.human t => t
  | ChatMsg.ai t => t
  | ChatMsg.toolResult _ t => t
  | ChatMsg.system t => t

/-- Whether a message is an `AIMessage` (`msg.type == 'ai'`). -/
def isAiMsg : ChatMsg → Bool
  | ChatMsg.ai _ => true
  | _ => false

/-- Worker status, spec section 4.1. -/
inductive WStatus where
  | running
  | suspended
  | completed
deriving Repr, DecidableEq

/-- Modelled from the spec: a checkpoint is the immutable snapshot
`{message history, outstanding (pending) guarded call, status}` of one
session; a `suspended` checkpoint embeds its Interrupt as the pending call
(spec section 3). -/
structure WCheckpoint (τ : Type) where
  history : List ChatMsg
  pendingCall : Option τ
  status : WStatus
deriving Repr, DecidableEq

/-- Modelled from the spec: the Interrupt value object — the requested
action's name together with the captured tool call (spec section 3). -/
structure WInterrupt (τ : Type) where
  actionName : String
  call : τ
deriving Repr, DecidableEq

/-- A checkpoint store keyed by session key; `put` prepends, so the log of
older checkpoints is retained and the head entry per key is the current
checkpoint (last-write-wins, spec section 4.4). -/
abbrev CkptStore (τ : Type) := List (String × WCheckpoint τ)

/-- `put(session_key, checkpoint)`. -/
def ckptPut (st : CkptStore τ) (key : String) (ck : WCheckpoint τ) :
    CkptStore τ :=
  (key, ck) :: st

/-- `get_latest(session_key)`: the most recently written checkpoint for the
key, if any. -/
def getLatest (st : CkptStore τ) (key : String) : Option (WCheckpoint τ) :=
  (st.find? (fun p => p.1 == key)).map Prod.snd

/-- The two checkpointer implementations the source wires in. -/
inductive SaverKind where
  | inMemory
  | sqliteFile
deriving Repr, DecidableEq

/-- Effect of a process restart on a store: `InMemorySaver` lives in process
memory and is lost; `AsyncSqliteSaver` is a durable file and survives. -/
def restartStore : SaverKind → CkptStore τ → CkptStore τ
  | SaverKind.inMemory, _ => []
  | SaverKind.sqliteFile, st => st

/-- `car_subagent` is constructed with `checkpointer=InMemorySaver()`
(`car_agent.py`). -/
def carSubagentSaver : SaverKind := SaverKind.inMemory

/-- `flight_subagent` is constructed with `checkpointer=InMemorySaver()`
(`flight_agent.py`). -/
def flightSubagentSaver : SaverKind := SaverKind.inMemory

/-- `hotel_subagent` is constructed with `checkpointer=InMemorySaver()`
(`hotel_agent.py`). -/
def hotelSubagentSaver : SaverKind := SaverKind.inMemory

/-- `excursion_subagent` is constructed with `checkpointer=InMemorySaver()`
(`trip_agent.py`). -/
def excursionSubagentSaver : SaverKind := SaverKind.inMemory

/-- The supervisor agent in `travel_agent.main` is constructed with the
`AsyncSqliteSaver` over `./data/Checkpoints/sqlite_saver.db`. -/
def supervisorSaver : SaverKind := SaverKind.sqliteFile

/-! ## 5. The worker state machine

Modelled from the spec: the reasoning/tool loop of `create_agent` with
`HumanInTheLoopMiddleware` is an external library; sections 4.1 and 4.2 of
the specification describe it, and the definitions below follow that
description.  The reasoning provider is a black box, so a worker run is
driven by a *plan*: the sequence of tool invocations and the final answer
the provider would emit.  Everything else — the policy consulted, the tools
executed, the relay, the stores — comes from the repository's code. -/

/-- A worker's toolset: names, the guard policy, and the side effect of
executing each tool on the world `W`. -/
structure ToolSpec (τ W : Type) where
  name : τ → String
  guarded : τ → Bool
  exec : τ → W → String × W

/-- One step the reasoning provider plans: invoke a tool or answer. -/
inductive PlanStep (τ : Type) where
  | invokeTool (c : τ)
  | finalAnswer (t : String)
deriving Repr, DecidableEq

/-- Result of driving the worker once. -/
inductive WorkerResult (τ : Type) where
  | interrupted (i : WInterrupt τ)
  | finished (answer : String)
  | staleDecision
deriving Repr, DecidableEq

/-- Outcome of a worker run: the result, the checkpoint the run persisted
last, the world after the run, and (the spy the spec's testable properties
ask for) the list of tool calls whose side effects actually executed. -/
structure RunOutcome (τ W : Type) where
  result : WorkerResult τ
  ckpt : WCheckpoint τ
  world : W
  executed : List τ
deriving Repr

/-- Modelled from the spec (section 4.1, operation `step`, case (a)/(b)):
run the loop over the plan.  An unguarded tool executes at once and its
result is appended; a guarded tool suspends with the Interrupt embedded in a
`suspended` checkpoint and is NOT executed; a final answer yields a
`completed` checkpoint. -/
def runLoop (ts : ToolSpec τ W) :
    List (PlanStep τ) → List ChatMsg → W → RunOutcome τ W
  | [], hist, w =>
    ⟨WorkerResult.finished "", ⟨hist, none, WStatus.completed⟩, w, []⟩
  | PlanStep.finalAnswer t :: _, hist, w =>
    ⟨WorkerResult.finished t, ⟨hist ++ [ChatMsg.ai t], none, WStatus.completed⟩,
      w, []⟩
  | PlanStep.invokeTool c :: rest, hist, w =>
    if ts.guarded c then
      ⟨WorkerResult.interrupted ⟨ts.name c, c⟩, ⟨hist, some c, WStatus.suspended⟩,
        w, []⟩
    else
      let r := ts.exec c w
      let out := runLoop ts rest (hist ++ [ChatMsg.toolResult (ts.name c) r.1]) r.2
      ⟨out.result, out.ckpt, out.world, c :: out.executed⟩

/-- Modelled from the spec: invoking the worker with an input message loads
the session history from its latest checkpoint, appends the message, runs
the loop and persists the resulting checkpoint under the session key. -/
def invokeWorker (ts : ToolSpec τ W) (key : String) (plan : List (PlanStep τ))
    (input : String) (st : CkptStore τ) (w : W) :
    RunOutcome τ W × CkptStore τ :=
  let hist :=
    match getLatest st key with
    | some ck => ck.history
    | none => []
  let out := runLoop ts plan (hist ++ [ChatMsg.human input]) w
  (out, ckptPut st key out.ckpt)

/-- The synthetic tool result the engine appends on a rejected decision
(spec section 4.1: "operation cancelled by user"). -/
def cancelMsgText : String := "operation cancelled by user"

/-- Modelled from the spec (section 4.1, the Decision case): resuming with a
decision requires the current checkpoint to be `suspended` with a pending
call; otherwise the decision is stale and nothing changes.  On approve the
captured call executes and the loop continues; on reject the synthetic
cancellation result is appended instead and the loop continues; either path
consumes the Interrupt and persists the resulting checkpoint. -/
def resumeWorker (ts : ToolSpec τ W) (key : String) (plan : List (PlanStep τ))
    (d : DecisionName) (st : CkptStore τ) (w : W) :
    RunOutcome τ W × CkptStore τ :=
  match getLatest st key with
  | some ck =>
    match ck.status, ck.pendingCall with
    | WStatus.suspended, some c =>
      if d = DecisionName.approve then
        let r := ts.exec c w
        let out := runLoop ts plan
          (ck.history ++ [ChatMsg.toolResult (ts.name c) r.1]) r.2
        (⟨out.result, out.ckpt, out.world, c :: out.executed⟩,
          ckptPut st key out.ckpt)
      else
        let out := runLoop ts plan
          (ck.history ++ [ChatMsg.toolResult (ts.name c) cancelMsgText]) w
        (out, ckptPut st key out.ckpt)
    | _, _ => (⟨WorkerResult.staleDecision, ck, w, []⟩, st)
  | none =>
    (⟨WorkerResult.staleDecision, ⟨[], none, WStatus.running⟩, w, []⟩, st)

/-- The car worker's toolset: names and guards from `car_subagent`'s
`interrupt_on` mapping, side effects from the five tool embeddings above. -/
inductive CarToolCall where
  | searchCars (location carType name : Option String)
  | searchOrders (userId : Option String) (orderId : Option Int)
      (status : Option String)
  | createOrder (carId : Int) (userId : String) (startDate endDate : String)
  | updateOrder (orderId : Int) (startDate endDate : Option String)
  | cancelOrder (orderId : Int)
deriving Repr, DecidableEq

/-- The registered tool name of a car tool call. -/
def carToolName : CarToolCall → String
  | CarToolCall.searchCars .. => "search_available_cars"
  | CarToolCall.searchOrders .. => "search_rental_orders"
  | CarToolCall.createOrder .. => "create_rental_order"
  | CarToolCall.updateOrder .. => "update_rental_order"
  | CarToolCall.cancelOrder .. => "cancel_rental_order"

/-- Execute a car tool against the travel database; the search tools only
read. -/
def execCarTool : CarToolCall → TravelDb → String × TravelDb
  | CarToolCall.searchCars l t n, db => (reprStr (search_available_cars l t n db), db)
  | CarToolCall.searchOrders u o s, db => (reprStr (search_rental_orders u o s db), db)
  | CarToolCall.createOrder c u s e, db => create_rental_order c u s e db
  | CarToolCall.updateOrder o s e, db => update_rental_order o s e db
  | CarToolCall.cancelOrder o, db => cancel_rental_order o db

/-- The car worker's `ToolSpec`, with the guard looked up in the
`interrupt_on` policy by registered tool name. -/
def carToolSpec : ToolSpec CarToolCall TravelDb :=
  ⟨carToolName, fun c => carGuardedName (carToolName c), execCarTool⟩

/-! ## 6. The supervisor's permission relay (`travel_agent.py`) -/

/-- `value.strip().lower()` as `rich.prompt.Confirm` normalises a response. -/
def stripLower (s : String) : String := ⟨lowerAll (pyStrip s.data)⟩

/-- Models `rich.prompt.Confirm.ask(..., default=False)` as called in
`handle_permission_confirmation` (the `rich` library is an external
dependency): an empty response returns the default; a response whose
stripped, lower-cased form is `"y"` or `"n"` is parsed; anything else is an
invalid response that is surfaced back to the user, re-prompting on the next
response.  `none` means the response list ran out while re-prompting. -/
def confirmAsk (dflt : Bool) : List String → Option Bool
  | [] => none
  | resp :: rest =>
    if resp = "" then some dflt
    else if stripLower resp = "y" then some true
    else if stripLower resp = "n" then some false
    else confirmAsk dflt rest

/-- The relay's resulting Decision: the boolean approval mapped onto
`{"type": "approve"}` / `{"type": "reject"}` as in
`handle_permission_confirmation`. -/
def relayDecision (userInputs : List String) : Option DecisionName :=
  (confirmAsk false userInputs).map
    (fun b => if b then DecisionName.approve else DecisionName.reject)

/-- The content `handle_permission_confirmation` extracts from an approve
resume: the last `AIMessage` of `result['messages']`, falling back to the
last message. -/
def lastAiContent (msgs : List ChatMsg) : String :=
  match msgs.reverse.find? isAiMsg with
  | some m => msgContent m
  | none =>
    match msgs.reverse with
    | m :: _ => msgContent m
    | [] => ""

/-- The literal string `handle_permission_confirmation` returns on reject
("the user cancelled the operation in the service"). -/
def cancelledReturnText : String := "用户在服务中取消了该操作。"

/-- Embedding of `handle_permission_confirmation` (`travel_agent.py`):
ask for confirmation with default `False`; on approval, resume the worker
with `{"decisions": [{"type": "approve"}]}` and return the last `AIMessage`
content of the result; on refusal, resume with `{"type": "reject"}`,
*discard* the worker's result and return the fixed cancellation text.
Returns the text plus the updated store and world; `none` when the
confirmation prompt ran out of responses. -/
def handle_permission_confirmation (ts : ToolSpec τ W) (key : String)
    (plan : List (PlanStep τ)) (userInputs : List String) (st : CkptStore τ)
    (w : W) : Option (String × CkptStore τ × W) :=
  match confirmAsk false userInputs with
  | none => none
  | some true =>
    let r := resumeWorker ts key plan DecisionName.approve st w
    some (lastAiContent r.1.ckpt.history, r.2, r.1.world)
  | some false =>
    let r := resumeWorker ts key plan DecisionName.reject st w
    some (cancelledReturnText, r.2, r.1.world)

/-! ## 7. Worker session keys (`travel_agent.py`) -/

/-- The `thread_id` that `call_flight_subagent` uses for the flight worker:
the function builds `{"configurable": {"thread_id": "flight_agent"}}`
regardless of its `query` argument (and has no other argument at all). -/
def flightSessionKey (_query : String) : String := "flight_agent"

/-- The `thread_id` that `call_hotel_subagent` uses. -/
def hotelSessionKey (_query : String) : String := "hotel_agent"

/-- The `thread_id` that `call_car_subagent` uses. -/
def carSessionKey (_query : String) : String := "car_agent"

/-- The `thread_id` that `call_excursion_subagent` uses. -/
def excursionSessionKey (_query : String) : String := "excursion_agent"

/-- The supervisor's own conversation `thread_id` in `travel_agent.main`. -/
def supervisorThreadId : String := "xlp"

/-! ## 8. Session memory store and middleware -/

/-- A memory namespace, `(user_id, "memories")`. -/
abbrev MemNamespace := String × String

/-- The memory store: an append-only list of (namespace, key, content)
entries (spec section 4.5: insertion order, unbounded, no eviction). -/
abbrev MemStore := List (MemNamespace × String × String)

/-- `store.aput(namespace, key, value)`. -/
def memPut (st : MemStore) (ns : MemNamespace) (key v : String) : MemStore :=
  st ++ [(ns, key, v)]

/-- `store.asearch(namespace)`: all entries of the namespace, in insertion
order. -/
def memSearch (st : MemStore) (ns : MemNamespace) : List String :=
  (st.filter (fun e => e.1 == ns)).map (fun e => e.2.2)

/-- Content of the last message of a state, `state["messages"][-1].content`. -/
def lastMsgContent (msgs : List ChatMsg) : String :=
  match msgs.reverse with
  | m :: _ => msgContent m
  | [] => ""

/-- Embedding of `SaveStoreMiddleware.aafter_agent` (`save_store.py`): write
the last message's content under a fresh random key in the namespace
`(user_id, "memories")`. -/
def saveStoreAfter (userId freshKey : String) (msgs : List ChatMsg)
    (st : MemStore) : MemStore :=
  memPut st (userId, "memories") freshKey (lastMsgContent msgs)

/-- Embedding of `ReadStoreMiddleware.abefore_agent` (`read_store.py`): read
all memories of `(user_id, "memories")` and, when non-empty, inject them as
one system message. -/
def readStoreBefore (userId : String) (st : MemStore) : Option ChatMsg :=
  let mems := memSearch st (userId, "memories")
  if mems.isEmpty then none
  else
    some (ChatMsg.system ("用户历史记忆:\n" ++
      String.intercalate "\n" (mems.map (fun m => "- " ++ m))))

/-- The middleware list of the supervisor agent built in
`travel_agent.main`: its `create_agent` call passes NO `middleware` argument
(and no `store` either), so no custom middleware runs on a supervisor turn. -/
def travelSupervisorMws : List String := []

/-- The middleware list of the agent built in `demo.py`: read-store, file
search, save-store, in that order. -/
def demoAgentMws : List String :=
  ["ReadStoreMiddleware", "FilesystemFileSearchMiddleware", "SaveStoreMiddleware"]

/-- Modelled from the spec (section 9, hook engine): the after-turn hook of
one named middleware applied to the memory store; of the repository's
middleware only `SaveStoreMiddleware` writes to memory. -/
def applyAfterHook (userId freshKey : String) (msgs : List ChatMsg)
    (st : MemStore) (mw : String) : MemStore :=
  if mw = "SaveStoreMiddleware" then saveStoreAfter userId freshKey msgs st
  else st

/-- The memory store after one agent turn: each configured middleware's
after-turn hook applied in order. -/
def memoryAfterTurn (mws : List String) (userId freshKey : String)
    (msgs : List ChatMsg) (st : MemStore) : MemStore :=
  mws.foldl (applyAfterHook userId freshKey msgs) st

/-! ## 9. Helper lemmas -/

/-- `get_latest` right after a `put` of the same key yields that checkpoint. -/
theorem getLatest_ckptPut_self (st : CkptStore τ) (key : String)
    (ck : WCheckpoint τ) : getLatest (ckptPut st key ck) key = some ck := by
  simp [getLatest, ckptPut, List.find?]

/-- Every tool call the loop actually executes is unguarded: the loop stops
at the first guarded call without executing it. -/
theorem runLoop_exec_unguarded (ts : ToolSpec τ W) :
    ∀ (plan : List (PlanStep τ)) (hist : List ChatMsg) (w : W) (c : τ),
      c ∈ (runLoop ts plan hist w).executed → ts.guarded c = false := by
  intro plan
  induction plan with
  | nil => intro hist w c hc; simp [runLoop] at hc
  | cons s rest ih =>
    intro hist w c hc
    cases s with
    | finalAnswer t => simp [runLoop] at hc
    | invokeTool c0 =>
      by_cases hg : ts.guarded c0 = true
      · simp [runLoop, hg] at hc
      · simp [runLoop, hg] at hc
        rcases hc with h | h
        · subst h; simpa using hg
        · exact ih _ _ _ h

/-- When the loop returns an Interrupt, the interrupting call is guarded and
is embedded, pending, in a `suspended` checkpoint. -/
theorem runLoop_interrupted (ts : ToolSpec τ W) :
    ∀ (plan : List (PlanStep τ)) (hist : List ChatMsg) (w : W)
      (i : WInterrupt τ),
      (runLoop ts plan hist w).result = WorkerResult.interrupted i →
      ts.guarded i.call = true
      ∧ (runLoop ts plan hist w).ckpt.pendingCall = some i.call
      ∧ (runLoop ts plan hist w).ckpt.status = WStatus.suspended := by
  intro plan
  induction plan with
  | nil => intro hist w i hr; simp [runLoop] at hr
  | cons s rest ih =>
    intro hist w i hr
    cases s with
    | finalAnswer t => simp [runLoop] at hr
    | invokeTool c0 =>
      by_cases hg : ts.guarded c0 = true
      · simp only [runLoop, hg, if_true] at hr
        injection hr with h2
        subst h2
        simp [runLoop, hg]
      · simp only [runLoop, hg, if_false] at hr ⊢
        exact ih _ _ _ hr

/-- When the loop finishes with an answer, the persisted checkpoint is
`completed` and holds no pending call. -/
theorem runLoop_finished (ts : ToolSpec τ W) :
    ∀ (plan : List (PlanStep τ)) (hist : List ChatMsg) (w : W) (a : String),
      (runLoop ts plan hist w).result = WorkerResult.finished a →
      (runLoop ts plan hist w).ckpt.status = WStatus.completed
      ∧ (runLoop ts plan hist w).ckpt.pendingCall = none := by
  intro plan
  induction plan with
  | nil => intro hist w a _; exact ⟨rfl, rfl⟩
  | cons s rest ih =>
    intro hist w a hr
    cases s with
    | finalAnswer t => exact ⟨rfl, rfl⟩
    | invokeTool c0 =>
      by_cases hg : ts.guarded c0 = true
      · simp only [runLoop, hg, if_true] at hr; cases hr
      · simp only [runLoop, hg, if_false] at hr ⊢
        exact ih _ _ _ hr

/-- When all unguarded tools are pure on the world, a loop run leaves the
world unchanged (it never executes a guarded tool). -/
theorem runLoop_world_pure (ts : ToolSpec τ W)
    (hpure : ∀ (c : τ) (w : W), ts.guarded c = false → (ts.exec c w).2 = w) :
    ∀ (plan : List (PlanStep τ)) (hist : List ChatMsg) (w : W),
      (runLoop ts plan hist w).world = w := by
  intro plan
  induction plan with
  | nil => intro hist w; rfl
  | cons s rest ih =>
    intro hist w
    cases s with
    | finalAnswer t => rfl
    | invokeTool c0 =>
      by_cases hg : ts.guarded c0 = true
      · simp [runLoop, hg]
      · have hw : (ts.exec c0 w).2 = w := hpure c0 w (by simpa using hg)
        simp [runLoop, hg, hw, ih]

/-- The car worker's unguarded tools (the two searches) do not modify the
database. -/
theorem carToolSpec_unguarded_pure :
    ∀ (c : CarToolCall) (db : TravelDb),
      carToolSpec.guarded c = false → (carToolSpec.exec c db).2 = db := by
  intro c db hg
  cases c with
  | searchCars l t n => rfl
  | searchOrders u o s => rfl
  | createOrder a b cc d => simp [carToolSpec, carGuardedName, carToolName, car_interrupt_on, guardRequires] at hg
  | updateOrder a b cc => simp [carToolSpec, carGuardedName, carToolName, car_interrupt_on, guardRequires] at hg
  | cancelOrder a => simp [carToolSpec, carGuardedName, carToolName, car_interrupt_on, guardRequires] at hg

/-! ## 10. Concrete fixtures used by witnesses and counterexamples -/

/-- A one-car, one-order travel database. -/
def demoDb : TravelDb :=
  { cars := [{ id := 1, name := "神州租车", location := "北京", carType := "SUV",
               pricePerDay := 300, rentedQuantity := 1, totalQuantity := 3,
               available := 2 }],
    orders := [{ id := 1, carId := 1, userId := "u1",
                 startDate := "2024-01-01", endDate := "2024-01-02",
                 totalPrice := 600, status := "active" }] }

/-- A suspended car-worker checkpoint embedding a pending guarded call. -/
def demoSuspCkpt : WCheckpoint CarToolCall :=
  { history := [ChatMsg.human "取消订单1"],
    pendingCall := some (CarToolCall.cancelOrder 1),
    status := WStatus.suspended }

/-- A store holding the suspended checkpoint under the car worker's key. -/
def demoSuspStore : CkptStore CarToolCall := ckptPut [] "car_agent" demoSuspCkpt

/-- A freshly completed checkpoint (no outstanding Interrupt). -/
def demoDoneCkpt : WCheckpoint CarToolCall :=
  { history := [ChatMsg.human "查一下车", ChatMsg.ai "已经查到两辆。"],
    pendingCall := none, status := WStatus.completed }

/-- A plan whose first step reaches the guarded `create_rental_order` tool. -/
def demoPlan : List (PlanStep CarToolCall) :=
  [PlanStep.invokeTool (CarToolCall.createOrder 1 "u1" "2024-01-01" "2024-01-02"),
   PlanStep.finalAnswer "已为您预订。"]

/-- The Interrupt that `demoPlan` produces. -/
def demoInterrupt : WInterrupt CarToolCall :=
  { actionName := "create_rental_order",
    call := CarToolCall.createOrder 1 "u1" "2024-01-01" "2024-01-02" }

/-! ## 11. The claims -/

/-- C2, counterexample: the worker checkpoint stores do NOT survive a process
restart.  `car_subagent` is built over `InMemorySaver` (`car_agent.py`), so
after a restart `get_latest` for the car worker's session key returns
nothing, not the last persisted SUSPENDED checkpoint — refuting the claim at
this concrete store. -/
theorem worker_checkpoint_restart_C2_counterexample :
    getLatest (ckptPut ([] : CkptStore CarToolCall) "car_agent" demoSuspCkpt)
        "car_agent" = some demoSuspCkpt
    ∧ getLatest
        (restartStore carSubagentSaver
          (ckptPut ([] : CkptStore CarToolCall) "car_agent" demoSuspCkpt))
        "car_agent" = none
    ∧ carSubagentSaver = SaverKind.inMemory := by
  refine ⟨?_, rfl, rfl⟩
  exact getLatest_ckptPut_self [] "car_agent" demoSuspCkpt

/-- C2 (amended): within one process, `get_latest` after a `put` returns the
checkpoint just persisted (with its embedded Interrupt and full history);
the supervisor's sqlite-backed store also survives a restart; but the four
workers' `InMemorySaver` stores are emptied by a restart, so `get_latest`
then returns nothing for every worker session key. -/
theorem worker_checkpoint_restart_C2 :
    ∀ (τ : Type) (st : CkptStore τ) (key : String) (ck : WCheckpoint τ),
      getLatest (ckptPut st key ck) key = some ck
      ∧ getLatest (restartStore supervisorSaver (ckptPut st key ck)) key = some ck
      ∧ (∀ key2 : String, getLatest (restartStore carSubagentSaver st) key2 = none)
      ∧ restartStore flightSubagentSaver st = []
      ∧ restartStore hotelSubagentSaver st = []
      ∧ restartStore excursionSubagentSaver st = [] := by
  intro τ st key ck
  exact ⟨getLatest_ckptPut_self st key ck, getLatest_ckptPut_self st key ck,
    fun key2 => rfl, rfl, rfl, rfl⟩

/-- C5: each `call_*_subagent` tool keys its worker's checkpoints by a fixed
constant `thread_id` per domain — independent of the query (and of the end
user and supervisor conversation, which are not even inputs of the key) —
so any two invocations of the same domain worker read and write the same
worker session. -/
theorem fixed_session_keys_C5 :
    ∀ q1 q2 : String,
      flightSessionKey q1 = "flight_agent"
      ∧ hotelSessionKey q1 = "hotel_agent"
      ∧ carSessionKey q1 = "car_agent"
      ∧ excursionSessionKey q1 = "excursion_agent"
      ∧ flightSessionKey q1 = flightSessionKey q2
      ∧ hotelSessionKey q1 = hotelSessionKey q2
      ∧ carSessionKey q1 = carSessionKey q2
      ∧ excursionSessionKey q1 = excursionSessionKey q2
      ∧ ∀ (st : CkptStore CarToolCall),
          getLatest st (carSessionKey q1) = getLatest st (carSessionKey q2) := by
  intro q1 q2
  exact ⟨rfl, rfl, rfl, rfl, rfl, rfl, rfl, rfl, fun st => rfl⟩

/-- C6, counterexample: an empty approval input — not an unambiguous
affirmative or negative — is not surfaced back and raises nothing: the relay
(`Confirm.ask` with `default=False`) silently maps it to the reject
Decision. -/
theorem ambiguous_decision_C6_counterexample :
    confirmAsk false [""] = some false
    ∧ relayDecision [""] = some DecisionName.reject := by
  exact ⟨rfl, rfl⟩

/-- C6 (amended): an unrecognized NON-EMPTY approval input is surfaced back
to the user (the prompt repeats on the next response, deciding nothing by
itself), while an EMPTY input is silently defaulted — with `default=False`
it becomes the reject Decision; no `AmbiguousDecisionError` exists in the
code.  Unambiguous `y`/`n` answers map to approve/reject. -/
theorem ambiguous_decision_C6 :
    ∀ (dflt : Bool) (s : String) (rest : List String),
      (s ≠ "" → stripLower s ≠ "y" → stripLower s ≠ "n" →
        confirmAsk dflt (s :: rest) = confirmAsk dflt rest)
      ∧ confirmAsk dflt ("" :: rest) = some dflt
      ∧ relayDecision ("" :: rest) = some DecisionName.reject
      ∧ (s ≠ "" → stripLower s = "y" → confirmAsk dflt (s :: rest) = some true)
      ∧ (s ≠ "" → stripLower s = "n" → confirmAsk dflt (s :: rest) = some false) := by
  intro dflt s rest
  refine ⟨?_, rfl, rfl, ?_, ?_⟩
  · intro h1 h2 h3
    simp [confirmAsk, h1, h2, h3]
  · intro h1 h2
    simp [confirmAsk, h1, h2]
  · intro h1 h2
    have h3 : stripLower s ≠ "y" := by rw [h2]; decide
    simp [confirmAsk, h1, h2, h3]

/-- C6 witness: the unrecognized non-empty input "maybe" defers to the next
response, and "y" maps to approval. -/
theorem ambiguous_decision_C6_witness :
    confirmAsk false ["maybe", "y"] = confirmAsk false ["y"]
    ∧ confirmAsk false ["y"] = some true := by
  constructor
  · exact (ambiguous_decision_C6 false "maybe" ["y"]).1 (by decide) (by decide)
      (by decide)
  · exact (ambiguous_decision_C6 false "y" []).2.2.2.1 (by decide) (by decide)

/-- C7, counterexample: the supervisor built in `travel_agent.main` passes
neither `middleware` nor `store` to `create_agent`, so a supervisor turn
that produced the final answer "答复" writes NO memory entry: the store is
unchanged and the user's namespace stays empty — refuting the claim at this
concrete turn. -/
theorem supervisor_memory_C7_counterexample :
    travelSupervisorMws = []
    ∧ memoryAfterTurn travelSupervisorMws "xlp" "key1"
        [ChatMsg.human "你好", ChatMsg.ai "答复"] [] = ([] : MemStore)
    ∧ memSearch ([] : MemStore) ("xlp", "memories") = [] := by
  exact ⟨rfl, rfl, rfl⟩

/-- C7 (amended): the memory middleware behave as described — after a turn
`SaveStoreMiddleware` appends exactly the final message's content under the
user's `(user_id, "memories")` namespace, `ReadStoreMiddleware`'s search
sees all entries of the namespace in insertion order, and no middleware ever
updates or deletes an entry — but they are attached only to the `demo.py`
agent; the `travel_agent.py` supervisor has no middleware, so its turns
leave the memory store untouched. -/
theorem supervisor_memory_C7 :
    ∀ (userId freshKey : String) (msgs : List ChatMsg) (st : MemStore),
      memoryAfterTurn travelSupervisorMws userId freshKey msgs st = st
      ∧ memoryAfterTurn demoAgentMws userId freshKey msgs st
          = st ++ [((userId, "memories"), freshKey, lastMsgContent msgs)]
      ∧ memSearch (memoryAfterTurn demoAgentMws userId freshKey msgs st)
            (userId, "memories")
          = memSearch st (userId, "memories") ++ [lastMsgContent msgs]
      ∧ ∀ e, e ∈ st → e ∈ memoryAfterTurn demoAgentMws userId freshKey msgs st := by
  intro userId freshKey msgs st
  refine ⟨rfl, rfl, ?_, ?_⟩
  · show memSearch (st ++ [((userId, "memories"), freshKey, lastMsgContent msgs)]) _ = _
    simp [memSearch, List.filter_append]
  · intro e he
    show e ∈ st ++ [((userId, "memories"), freshKey, lastMsgContent msgs)]
    exact List.mem_append_left _ he

/-- C7 witness: a pre-existing entry survives a demo-agent turn that writes
a new memory. -/
theorem supervisor_memory_C7_witness :
    ((("u", "memories"), "k0", "old") : MemNamespace × String × String)
      ∈ memoryAfterTurn demoAgentMws "u" "k1" [ChatMsg.ai "ans"]
          [((("u", "memories") : MemNamespace), "k0", "old")] := by
  exact (supervisor_memory_C7 "u" "k1" [ChatMsg.ai "ans"]
    [((("u", "memories") : MemNamespace), "k0", "old")]).2.2.2 _ (by decide)

/-- Appending `" limit 5"` (lower-cased) to any text yields a match of the
limit-tail pattern: the space before `limit` is a word boundary and `5` is
the required count. -/
theorem searchLimitAux_append_tail :
    ∀ (l : List Char) (b : Bool),
      searchLimitAux b (l ++ " limit 5".data) = true := by
  intro l
  induction l with
  | nil => intro b; cases b <;> decide
  | cons c l ih =>
    intro b
    show (_ || searchLimitAux (isWordChar c) (l ++ " limit 5".data)) = true
    rw [ih (isWordChar c)]
    exact Bool.or_true _

/-- Lower-casing distributes over the appended literal tail. -/
theorem hasLimitTail_append (l : List Char) :
    hasLimitTail (l ++ " LIMIT 5".data) = true := by
  unfold hasLimitTail
  rw [show lowerAll (l ++ " LIMIT 5".data) = lowerAll l ++ " limit 5".data by
    simp [lowerAll]]
  exact searchLimitAux_append_tail (lowerAll l) false

/-- C8, counterexample: the query `"SELECT 1; SELECT 2"` contains two
statements, yet its whitespace-stripped form holds only a single semicolon,
so `_safe_sql`'s multiple-statement check (`count > 1`, or a trailing plus an
earlier semicolon) does not fire: instead of an error message the sanitised
two-statement text is produced and handed to the database run callable and
executed — refuting the claim that more than one statement is always
rejected and never run. -/
theorem sql_guard_rejects_C8_counterexample :
    _safe_sql "SELECT 1; SELECT 2" = "SELECT 1; SELECT 2 LIMIT 5"
    ∧ (execute_sql (fun s => Except.ok ("ran: " ++ s)) "SELECT 1; SELECT 2").2
        = ["SELECT 1; SELECT 2 LIMIT 5"]
    ∧ (execute_sql (fun s => Except.ok ("ran: " ++ s)) "SELECT 1; SELECT 2").1
        = "ran: SELECT 1; SELECT 2 LIMIT 5"
    ∧ countSemi (pyStrip ("SELECT 1; SELECT 2").data) = 1 := by
  refine ⟨by decide, by decide, by decide, by decide⟩

/-- C8 (amended): `_safe_sql` rejects a query — returning one of its three
fixed error texts instead of a runnable query — whenever the
whitespace-stripped query holds MORE THAN ONE SEMICOLON (the code's
multiple-statement check; a single interior semicolon separating two
statements is not caught), or the semicolon/whitespace-stripped form does
not start with `select` (case-insensitively), or it contains a DML/DDL
keyword as a whole word.  `execute_sql` then passes only that fixed error
text to the database run callable, never the sanitised query itself. -/
theorem sql_guard_rejects_C8 :
    ∀ (query : String),
      (1 < countSemi (pyStrip query.data)
        ∨ "select".data.isPrefixOf (lowerAll (sqlStripped query.data)) = false
        ∨ denyMatch (sqlStripped query.data) = true) →
      (_safe_sql query = errMulti ∨ _safe_sql query = errNonSelect
        ∨ _safe_sql query = errDml)
      ∧ ∀ (run : String → Except String String),
          (execute_sql run query).2 = [_safe_sql query] := by
  intro query hrej
  constructor
  · unfold _safe_sql
    by_cases h1 : 1 < countSemi (pyStrip query.data)
      ∨ (endsWithSemi (pyStrip query.data) ∧ semiInInit (pyStrip query.data))
    · rw [if_pos h1]; exact Or.inl rfl
    · rw [if_neg h1]
      have h2 : ¬ (1 < countSemi (pyStrip query.data)) := fun h => h1 (Or.inl h)
      by_cases hsel :
          "select".data.isPrefixOf (lowerAll (sqlStripped query.data)) = true
      · have hden : denyMatch (sqlStripped query.data) = true := by
          rcases hrej with h | h | h
          · exact absurd h h2
          · rw [hsel] at h; cases h
          · exact h
        rw [if_neg (by simpa [sqlStripped] using hsel)]
        rw [if_pos (by simpa [sqlStripped] using hden)]
        exact Or.inr (Or.inr rfl)
      · rw [if_pos (by simpa [sqlStripped] using hsel)]
        exact Or.inr (Or.inl rfl)
  · intro run
    unfold execute_sql
    cases run (_safe_sql query) <;> rfl

/-- C8 witness: a DML statement is rejected with a fixed error text. -/
theorem sql_guard_rejects_C8_witness :
    _safe_sql "DELETE FROM users" = errMulti
    ∨ _safe_sql "DELETE FROM users" = errNonSelect
    ∨ _safe_sql "DELETE FROM users" = errDml := by
  exact (sql_guard_rejects_C8 "DELETE FROM users"
    (Or.inr (Or.inl (by decide)))).1

/-- C9: every accepted query (single statement, `select` prefix, no DML/DDL
keyword) that does not already end in a LIMIT clause comes back as its
stripped form with `" LIMIT 5"` appended; one that already ends in a LIMIT
clause is passed through unchanged apart from the whitespace/semicolon
stripping; either way the query `execute_sql` actually runs matches the
limit-tail pattern. -/
theorem sql_limit_appended_C9 :
    ∀ (query : String),
      ¬ (1 < countSemi (pyStrip query.data)
          ∨ (endsWithSemi (pyStrip query.data) ∧ semiInInit (pyStrip query.data))) →
      "select".data.isPrefixOf (lowerAll (sqlStripped query.data)) = true →
      denyMatch (sqlStripped query.data) = false →
      (hasLimitTail (sqlStripped query.data) = false →
          _safe_sql query = ⟨sqlStripped query.data ++ " LIMIT 5".data⟩)
      ∧ (hasLimitTail (sqlStripped query.data) = true →
          _safe_sql query = ⟨sqlStripped query.data⟩)
      ∧ hasLimitTail (_safe_sql query).data = true := by
  intro query hm hsel hden
  have hbody : _safe_sql query =
      (if ¬ (hasLimitTail (sqlStripped query.data) = true) then
        (⟨sqlStripped query.data ++ " LIMIT 5".data⟩ : String)
      else ⟨sqlStripped query.data⟩) := by
    unfold _safe_sql
    rw [if_neg hm]
    rw [if_neg (by simpa [sqlStripped] using hsel)]
    rw [if_neg (by simp [sqlStripped] at hden ⊢; exact hden)]
    rfl
  by_cases hlim : hasLimitTail (sqlStripped query.data) = true
  · rw [hbody, if_neg (by simpa using hlim)]
    refine ⟨fun h => ?_, fun _ => rfl, hlim⟩
    rw [h] at hlim
    cases hlim
  · rw [hbody, if_pos hlim]
    refine ⟨fun _ => rfl, fun h => absurd h hlim, ?_⟩
    exact hasLimitTail_append (sqlStripped query.data)

/-- C9 witness: a plain `SELECT` gains `LIMIT 5`; one with a LIMIT tail is
passed through; both end in a LIMIT clause. -/
theorem sql_limit_appended_C9_witness :
    _safe_sql "SELECT * FROM users" = ⟨sqlStripped ("SELECT * FROM users").data ++ " LIMIT 5".data⟩
    ∧ hasLimitTail (_safe_sql "SELECT * FROM users").data = true
    ∧ _safe_sql "SELECT id FROM t LIMIT 3;" = ⟨sqlStripped ("SELECT id FROM t LIMIT 3;").data⟩ := by
  refine ⟨?_, ?_, ?_⟩
  · exact (sql_limit_appended_C9 "SELECT * FROM users" (by decide) (by decide)
      (by decide)).1 (by decide)
  · exact (sql_limit_appended_C9 "SELECT * FROM users" (by decide) (by decide)
      (by decide)).2.2
  · exact (sql_limit_appended_C9 "SELECT id FROM t LIMIT 3;" (by decide)
      (by decide) (by decide)).2.1 (by decide)

/-- Membership through a car-row update: a row of the updated table is
either an untouched original row, or it carries exactly the two freshly
written quantities. -/
theorem mem_updateCarRow {cars : List CarRow} {carId rq av : Int}
    {c2 : CarRow} (h : c2 ∈ updateCarRow cars carId rq av) :
    c2 ∈ cars ∨ ∃ a, a ∈ cars ∧ (a.id == carId) = true ∧
      c2 = { a with rentedQuantity := rq, available := av } := by
  rcases List.mem_map.mp h with ⟨a, ha, heq⟩
  by_cases hid : (a.id == carId) = true
  · exact Or.inr ⟨a, ha, hid, by rw [← heq]; simp [hid]⟩
  · left
    rw [← heq]
    simp only [hid]
    simpa [Bool.not_eq_true] using ha

/-- A found car is a member with a matching id. -/
theorem findCar_mem {db : TravelDb} {carId : Int} {car : CarRow}
    (h : findCar db carId = some car) :
    car ∈ db.cars ∧ car.id = carId := by
  constructor
  · exact List.mem_of_find?_eq_some h
  · have := List.find?_some h
    simpa using this

/-- C10: `create_rental_order` and `cancel_rental_order` preserve the
inventory invariant of the `available_cars` rows they touch.  Assuming every
row's `rented_quantity` starts non-negative and the car ids are distinct (the
table's primary key), every row after either operation is either untouched or
satisfies `available = total_quantity - rented_quantity` with
`rented_quantity ≥ 0` (the cancel path clamps its decrement at 0); and
`create_rental_order` refuses — leaving the database unchanged, no order row
inserted — when the car is unavailable (`available` falsy) or
`rented_quantity ≥ total_quantity`. -/
theorem car_inventory_invariant_C10 :
    ∀ (db : TravelDb) (carId orderId : Int) (userId startDate endDate : String),
      (∀ c ∈ db.cars, 0 ≤ c.rentedQuantity) →
      (db.cars.map CarRow.id).Nodup →
      (∀ c2 ∈ (create_rental_order carId userId startDate endDate db).2.cars,
          c2 ∈ db.cars
          ∨ (c2.available = c2.totalQuantity - c2.rentedQuantity
              ∧ 0 ≤ c2.rentedQuantity))
      ∧ (∀ c2 ∈ (cancel_rental_order orderId db).2.cars,
          c2 ∈ db.cars
          ∨ (c2.available = c2.totalQuantity - c2.rentedQuantity
              ∧ 0 ≤ c2.rentedQuantity))
      ∧ (∀ car, findCar db carId = some car →
          (car.available = 0 ∨ car.totalQuantity ≤ car.rentedQuantity) →
          (create_rental_order carId userId startDate endDate db).2 = db) := by
  intro db carId orderId userId startDate endDate hq hnd
  refine ⟨?_, ?_, ?_⟩
  · intro c2 hc2
    cases hfc : findCar db carId with
    | none => simp only [create_rental_order, hfc] at hc2; exact Or.inl hc2
    | some car =>
      simp only [create_rental_order, hfc] at hc2
      by_cases hun : car.available = 0 ∨ car.totalQuantity ≤ car.rentedQuantity
      · rw [if_pos hun] at hc2; exact Or.inl hc2
      · rw [if_neg hun] at hc2
        cases hsd : parseYmd startDate with
        | none => simp only [hsd] at hc2; exact Or.inl hc2
        | some sd =>
          cases hed : parseYmd endDate with
          | none => simp only [hsd, hed] at hc2; exact Or.inl hc2
          | some ed =>
            simp only [hsd, hed] at hc2
            rcases mem_updateCarRow hc2 with h | ⟨a, ha, hid, heq⟩
            · exact Or.inl h
            · right
              obtain ⟨hcm, hcid⟩ := findCar_mem hfc
              have haeq : a = car := by
                refine List.inj_on_of_nodup_map hnd ha hcm ?_
                simpa [hcid] using hid
              subst haeq
              subst heq
              refine ⟨rfl, ?_⟩
              have hge := hq a ha
              show (0 : Int) ≤ a.rentedQuantity + 1
              omega
  · intro c2 hc2
    cases hfo : findOrder db orderId with
    | none => simp only [cancel_rental_order, hfo] at hc2; exact Or.inl hc2
    | some o =>
      simp only [cancel_rental_order, hfo] at hc2
      by_cases hcanc : o.status = "cancelled"
      · rw [if_pos hcanc] at hc2; exact Or.inl hc2
      · rw [if_neg hcanc] at hc2
        cases hfc : findCar db o.carId with
        | none => simp only [hfc] at hc2; exact Or.inl hc2
        | some car =>
          simp only [hfc] at hc2
          rcases mem_updateCarRow hc2 with h | ⟨a, ha, hid, heq⟩
          · exact Or.inl h
          · right
            obtain ⟨hcm, hcid⟩ := findCar_mem hfc
            have haeq : a = car := by
              refine List.inj_on_of_nodup_map hnd ha hcm ?_
              simpa [hcid] using hid
            subst haeq
            subst heq
            exact ⟨rfl, le_max_left 0 _⟩
  · intro car hfc hbad
    simp only [create_rental_order, hfc, if_pos hbad]

/-- C10 witness: on the concrete one-car database the hypotheses hold and a
successful booking leaves every row either untouched or satisfying the
inventory equation. -/
theorem car_inventory_invariant_C10_witness :
    (∀ c ∈ demoDb.cars, 0 ≤ c.rentedQuantity)
    ∧ (demoDb.cars.map CarRow.id).Nodup
    ∧ (∀ c2 ∈ (create_rental_order 1 "u2" "2024-01-05" "2024-01-06" demoDb).2.cars,
        c2 ∈ demoDb.cars
        ∨ (c2.available = c2.totalQuantity - c2.rentedQuantity
            ∧ 0 ≤ c2.rentedQuantity)) := by
  refine ⟨by decide, by decide, ?_⟩
  exact (car_inventory_invariant_C10 demoDb 1 1 "u2" "2024-01-05" "2024-01-06"
    (by decide) (by decide)).1

/-- C1: for every worker and session, invoking the worker never executes a
guarded tool's side effect — every tool call actually executed during an
invocation (and during a reject-resume) is unguarded — and when a guarded
tool is reached without a Decision the worker suspends: it returns the
Interrupt, and the persisted current checkpoint is SUSPENDED with the
guarded call embedded.  Moreover all eleven sensitive tools of the four
domain workers (`create/update/cancel_rental_order`,
`update_ticket_to_new_flight`, `cancel_ticket`,
`book/update/cancel_hotel`, `book/update/cancel_excursion`) are guarded in
the workers' `interrupt_on` policies. -/
theorem guarded_tools_require_approval_C1 :
    ∀ (τ W : Type) (ts : ToolSpec τ W) (key input : String)
      (plan : List (PlanStep τ)) (st : CkptStore τ) (w : W),
      (∀ c, c ∈ (invokeWorker ts key plan input st w).1.executed →
        ts.guarded c = false)
      ∧ (∀ c, c ∈ (resumeWorker ts key plan DecisionName.reject st w).1.executed →
          ts.guarded c = false)
      ∧ (∀ i, (invokeWorker ts key plan input st w).1.result
            = WorkerResult.interrupted i →
          ts.guarded i.call = true
          ∧ (invokeWorker ts key plan input st w).1.ckpt.status = WStatus.suspended
          ∧ (invokeWorker ts key plan input st w).1.ckpt.pendingCall = some i.call
          ∧ getLatest (invokeWorker ts key plan input st w).2 key
              = some (invokeWorker ts key plan input st w).1.ckpt)
      ∧ (flightGuardedName "update_ticket_to_new_flight" = true
         ∧ flightGuardedName "cancel_ticket" = true
         ∧ hotelGuardedName "book_hotel" = true
         ∧ hotelGuardedName "update_hotel" = true
         ∧ hotelGuardedName "cancel_hotel" = true
         ∧ excursionGuardedName "book_excursion" = true
         ∧ excursionGuardedName "update_excursion" = true
         ∧ excursionGuardedName "cancel_excursion" = true
         ∧ carGuardedName "create_rental_order" = true
         ∧ carGuardedName "update_rental_order" = true
         ∧ carGuardedName "cancel_rental_order" = true) := by
  intro τ W ts key input plan st w
  refine ⟨?_, ?_, ?_, by decide⟩
  · intro c hc
    exact runLoop_exec_unguarded ts plan _ _ c hc
  · intro c hc
    unfold resumeWorker at hc
    cases hget : getLatest st key with
    | none => simp [hget] at hc
    | some ck =>
      simp only [hget] at hc
      cases hst : ck.status with
      | suspended =>
        cases hpc : ck.pendingCall with
        | none => simp [hst, hpc] at hc
        | some c0 =>
          simp only [hst, hpc] at hc
          rw [if_neg (by decide : ¬ (DecisionName.reject = DecisionName.approve))]
            at hc
          exact runLoop_exec_unguarded ts plan _ _ c hc
      | running => simp [hst] at hc
      | completed => simp [hst] at hc
  · intro i hr
    simp only [invokeWorker] at hr
    have hrun := runLoop_interrupted ts plan _ w i hr
    exact ⟨hrun.1, hrun.2.2, hrun.2.1,
      getLatest_ckptPut_self st key _⟩

/-- C1 witness: on the concrete car worker, a plan that reaches the guarded
`create_rental_order` tool produces exactly that Interrupt and a SUSPENDED
checkpoint with the call embedded. -/
theorem guarded_tools_require_approval_C1_witness :
    carToolSpec.guarded demoInterrupt.call = true
    ∧ (invokeWorker carToolSpec "car_agent" demoPlan "帮我订1号车"
        ([] : CkptStore CarToolCall) demoDb).1.ckpt.status = WStatus.suspended
    ∧ (invokeWorker carToolSpec "car_agent" demoPlan "帮我订1号车"
        ([] : CkptStore CarToolCall) demoDb).1.ckpt.pendingCall
        = some demoInterrupt.call := by
  have h := guarded_tools_require_approval_C1 CarToolCall TravelDb carToolSpec
    "car_agent" "帮我订1号车" demoPlan [] demoDb
  have h3 := h.2.2.1 demoInterrupt (by decide)
  exact ⟨h3.1, h3.2.1, h3.2.2.1⟩

/-- C3 (amended): applying a reject Decision to a session suspended on a
guarded car tool does not execute the tool (the guarded call is absent from
the executed-tool spy of the continued run), appends the synthetic
"operation cancelled by user" tool result to the worker's history, and
continues the worker's loop from there; the backing database is completely
unchanged — in particular it gains no new row.  However, the text returned
to the caller is NOT what the worker's loop produces:
`handle_permission_confirmation` discards the worker's result and returns
the fixed string `用户在服务中取消了该操作。`. -/
theorem reject_decision_cancels_C3 :
    ∀ (key : String) (plan : List (PlanStep CarToolCall)) (inputs : List String)
      (st : CkptStore CarToolCall) (db : TravelDb)
      (ck : WCheckpoint CarToolCall) (c : CarToolCall),
      getLatest st key = some ck →
      ck.status = WStatus.suspended →
      ck.pendingCall = some c →
      carToolSpec.guarded c = true →
      confirmAsk false inputs = some false →
      handle_permission_confirmation carToolSpec key plan inputs st db
        = some (cancelledReturnText,
            ckptPut st key (runLoop carToolSpec plan
              (ck.history ++ [ChatMsg.toolResult (carToolSpec.name c) cancelMsgText])
              db).ckpt,
            db)
      ∧ c ∉ (runLoop carToolSpec plan
          (ck.history ++ [ChatMsg.toolResult (carToolSpec.name c) cancelMsgText])
          db).executed
      ∧ (runLoop carToolSpec plan
          (ck.history ++ [ChatMsg.toolResult (carToolSpec.name c) cancelMsgText])
          db).world = db := by
  intro key plan inputs st db ck c hget hst hpc hg hconf
  have hworld : (runLoop carToolSpec plan
      (ck.history ++ [ChatMsg.toolResult (carToolSpec.name c) cancelMsgText])
      db).world = db :=
    runLoop_world_pure carToolSpec carToolSpec_unguarded_pure plan _ db
  refine ⟨?_, ?_, hworld⟩
  · unfold handle_permission_confirmation
    rw [hconf]
    unfold resumeWorker
    simp only [hget, hst, hpc]
    rw [if_neg (by decide : ¬ (DecisionName.reject = DecisionName.approve))]
    rw [hworld]
  · intro hmem
    have := runLoop_exec_unguarded carToolSpec plan _ _ c hmem
    rw [hg] at this
    cases this

/-- C3 witness: with the suspended demo session and answer "n", the relay
returns the fixed cancellation text and the continued worker run. -/
theorem reject_decision_cancels_C3_witness :
    handle_permission_confirmation carToolSpec "car_agent"
        [PlanStep.finalAnswer "好的，已停止操作。"] ["n"] demoSuspStore demoDb
      = some (cancelledReturnText,
          ckptPut demoSuspStore "car_agent" (runLoop carToolSpec
            [PlanStep.finalAnswer "好的，已停止操作。"]
            (demoSuspCkpt.history ++
              [ChatMsg.toolResult (carToolSpec.name (CarToolCall.cancelOrder 1))
                cancelMsgText])
            demoDb).ckpt,
          demoDb) := by
  exact (reject_decision_cancels_C3 "car_agent"
    [PlanStep.finalAnswer "好的，已停止操作。"] ["n"] demoSuspStore demoDb
    demoSuspCkpt (CarToolCall.cancelOrder 1) (by decide) (by decide) rfl
    (by decide) (by decide)).1

/-- C3, counterexample: the claim says the worker's continued loop produces
the text returned to the caller; on this concrete rejected booking the
worker's loop finishes with the answer `预订流程已结束。` while
`handle_permission_confirmation` returns the unrelated fixed string
`用户在服务中取消了该操作。` — the worker's output is discarded. -/
theorem reject_decision_cancels_C3_counterexample :
    (handle_permission_confirmation carToolSpec "car_agent"
        [PlanStep.finalAnswer "预订流程已结束。"] ["n"] demoSuspStore demoDb).map
        Prod.fst
      = some cancelledReturnText
    ∧ (runLoop carToolSpec [PlanStep.finalAnswer "预订流程已结束。"]
        (demoSuspCkpt.history ++
          [ChatMsg.toolResult "cancel_rental_order" cancelMsgText]) demoDb).result
      = WorkerResult.finished "预订流程已结束。"
    ∧ cancelledReturnText ≠ "预订流程已结束。" := by
  refine ⟨by decide, by decide, by decide⟩

/-- A resume that ends in a finished answer always persisted a COMPLETED
checkpoint over the session key. -/
theorem resumeWorker_finished_store (ts : ToolSpec τ W) (key : String)
    (plan : List (PlanStep τ)) (d : DecisionName) (st : CkptStore τ) (w : W)
    (ans : String)
    (h : (resumeWorker ts key plan d st w).1.result = WorkerResult.finished ans) :
    ∃ ck2 : WCheckpoint τ,
      (resumeWorker ts key plan d st w).2 = ckptPut st key ck2
      ∧ ck2.status = WStatus.completed ∧ ck2.pendingCall = none := by
  unfold resumeWorker at h ⊢
  cases hget : getLatest st key with
  | none => simp only [hget] at h; cases h
  | some ck =>
    simp only [hget] at h ⊢
    cases hst : ck.status with
    | running => simp only [hst] at h; cases h
    | completed => simp only [hst] at h; cases h
    | suspended =>
      cases hpc : ck.pendingCall with
      | none => simp only [hst, hpc] at h; cases h
      | some c =>
        simp only [hst, hpc] at h ⊢
        by_cases hd : d = DecisionName.approve
        · rw [if_pos hd] at h ⊢
          have := runLoop_finished ts plan
            (ck.history ++ [ChatMsg.toolResult (ts.name c) (ts.exec c w).1])
            (ts.exec c w).2 ans h
          exact ⟨_, rfl, this.1, this.2⟩
        · rw [if_neg hd] at h ⊢
          have := runLoop_finished ts plan
            (ck.history ++ [ChatMsg.toolResult (ts.name c) cancelMsgText]) w ans h
          exact ⟨_, rfl, this.1, this.2⟩

/-- C4: a Decision supplied to a session whose current checkpoint is not
SUSPENDED (or has no outstanding Interrupt) yields the stale-decision error
outcome and causes no state change — the store and the world are untouched;
and once a Decision has consumed the session's single outstanding Interrupt
and the worker finished, a second Decision on the same session yields the
stale-decision error with no further state change. -/
theorem stale_decision_C4 :
    (∀ (τ W : Type) (ts : ToolSpec τ W) (key : String)
        (plan : List (PlanStep τ)) (d : DecisionName) (st : CkptStore τ) (w : W),
      (∀ ck, getLatest st key = some ck →
        ck.status ≠ WStatus.suspended ∨ ck.pendingCall = none) →
      (resumeWorker ts key plan d st w).1.result = WorkerResult.staleDecision
      ∧ (resumeWorker ts key plan d st w).2 = st
      ∧ (resumeWorker ts key plan d st w).1.world = w)
    ∧ (∀ (τ W : Type) (ts : ToolSpec τ W) (key : String)
        (plan plan2 : List (PlanStep τ)) (d d2 : DecisionName)
        (st : CkptStore τ) (w w2 : W) (ans : String),
      (resumeWorker ts key plan d st w).1.result = WorkerResult.finished ans →
      (resumeWorker ts key plan2 d2 (resumeWorker ts key plan d st w).2 w2).1.result
          = WorkerResult.staleDecision
      ∧ (resumeWorker ts key plan2 d2 (resumeWorker ts key plan d st w).2 w2).2
          = (resumeWorker ts key plan d st w).2) := by
  constructor
  · intro τ W ts key plan d st w hns
    unfold resumeWorker
    cases hget : getLatest st key with
    | none => exact ⟨rfl, rfl, rfl⟩
    | some ck =>
      obtain ⟨h0, p0, s0⟩ := ck
      cases s0 with
      | running => exact ⟨rfl, rfl, rfl⟩
      | completed => exact ⟨rfl, rfl, rfl⟩
      | suspended =>
        cases p0 with
        | none => exact ⟨rfl, rfl, rfl⟩
        | some c =>
          rcases hns ⟨h0, some c, WStatus.suspended⟩ hget with h | h
          · exact absurd rfl h
          · cases h
  · intro τ W ts key plan plan2 d d2 st w w2 ans hfin
    obtain ⟨ck2, hst2, hcomp, hpend⟩ :=
      resumeWorker_finished_store ts key plan d st w ans hfin
    rw [hst2]
    have hget2 : getLatest (ckptPut st key ck2) key = some ck2 :=
      getLatest_ckptPut_self st key ck2
    constructor
    · unfold resumeWorker
      simp only [hget2, hcomp]
    · unfold resumeWorker
      simp only [hget2, hcomp]

/-- C4 witness: a Decision on a freshly COMPLETED car session yields the
stale outcome and leaves the store exactly as it was; and after a reject
Decision finishes the suspended demo session, a second Decision is stale. -/
theorem stale_decision_C4_witness :
    ((resumeWorker carToolSpec "car_agent" ([] : List (PlanStep CarToolCall))
        DecisionName.approve (ckptPut [] "car_agent" demoDoneCkpt) demoDb).1.result
      = WorkerResult.staleDecision
    ∧ (resumeWorker carToolSpec "car_agent" ([] : List (PlanStep CarToolCall))
        DecisionName.approve (ckptPut [] "car_agent" demoDoneCkpt) demoDb).2
      = ckptPut [] "car_agent" demoDoneCkpt)
    ∧ (resumeWorker carToolSpec "car_agent" ([] : List (PlanStep CarToolCall))
        DecisionName.approve
        (resumeWorker carToolSpec "car_agent" [] DecisionName.reject
          demoSuspStore demoDb).2 demoDb).1.result
      = WorkerResult.staleDecision := by
  constructor
  · have h := stale_decision_C4.1 CarToolCall TravelDb carToolSpec "car_agent"
      [] DecisionName.approve (ckptPut [] "car_agent" demoDoneCkpt) demoDb
      (by intro ck hck
          have : demoDoneCkpt = ck := by
            have h0 : getLatest (ckptPut [] "car_agent" demoDoneCkpt) "car_agent"
                = some demoDoneCkpt := getLatest_ckptPut_self [] "car_agent" _
            rw [h0] at hck
            exact Option.some.inj hck
          subst this
          exact Or.inl (by decide))
    exact ⟨h.1, h.2.1⟩
  · exact (stale_decision_C4.2 CarToolCall TravelDb carToolSpec "car_agent"
      [] [] DecisionName.reject DecisionName.approve demoSuspStore demoDb demoDb
      "" (by decide)).1

end MyAgent
